import Mathlib

/-!
Shallow embedding of `src/core/event.py` from the `trading` repository.

Modelling conventions:
- Python strings (symbols, direction and type tags such as "MKT", "BUY",
  "LONG") are Lean `String`s; the source stores them without validation.
- Prices and monetary amounts are `ℚ` (Python arithmetic on these values in
  the spec scenario is exact; `ℚ` models it without rounding).
- Timestamps and bar indices are `Int`.
- Python `None` on an optional field is `Option.none`.
- `uuid.uuid4()` consumes 128 bits of entropy from the OS; the embedding
  passes that entropy explicitly as a `Nat` argument `rand` and applies the
  version and variant bit fixing that CPython performs.
- Each Python `__init__` becomes a total Lean function named `init` on the
  corresponding structure, listing exactly the attribute assignments the
  Python constructor performs.
-/

/-- Model of `uuid.uuid4()` applied to 128 random bits `r`: CPython clears
the variant bits (positions 62 and 63) and sets them to `10`, clears the
version nibble (positions 76 to 79) and sets it to `0100`. -/
def uuid4 (r : Nat) : Nat :=
  let i := r % 2 ^ 128
  let i := (i - Nat.land i (0xc000 <<< 48)) ||| (0x8000 <<< 48)
  let i := (i - Nat.land i (0xf000 <<< 64)) ||| (4 <<< 76)
  i

/-- `MarketEvent`: carries only the discriminant. -/
structure MarketEvent where
  type : String
deriving Repr, DecidableEq

/-- Embedding of `MarketEvent.__init__`. -/
def MarketEvent.init : MarketEvent :=
  { type := "MARKET" }

/-- `ActionEvent`: out-of-band control instruction. -/
structure ActionEvent where
  type : String
  symbol : String
  action_type : String
deriving Repr, DecidableEq

/-- Embedding of `ActionEvent.__init__`. -/
def ActionEvent.init (symbol action_type : String) : ActionEvent :=
  { type := "ACTION", symbol := symbol, action_type := action_type }

/-- `SignalEvent`: a trade intent produced by a strategy. -/
structure SignalEvent where
  type : String
  strategy_id : Int
  symbol : String
  datetime : Int
  signal_type : String
  quantity : Int
  stop_loss : Option ℚ
  profit_target : Option ℚ
  limit_price : Option ℚ
  stop_price : Option ℚ
  order_type : String
deriving Repr, DecidableEq

/-- Embedding of `SignalEvent.__init__` with every argument supplied
explicitly; the Python signature is
`(symbol, datetime, signal_type, order_type, limit_price, stop_loss,
profit_target, stop_price, quantity, strategy_id)`. The body performs no
validation: each attribute is assigned from the argument of the same name. -/
def SignalEvent.init (symbol : String) (datetime : Int) (signal_type : String)
    (order_type : String) (limit_price : Option ℚ) (stop_loss : Option ℚ)
    (profit_target : Option ℚ) (stop_price : Option ℚ)
    (quantity : Int) (strategy_id : Int) : SignalEvent :=
  { type := "SIGNAL"
    strategy_id := strategy_id
    symbol := symbol
    datetime := datetime
    signal_type := signal_type
    quantity := quantity
    stop_loss := stop_loss
    profit_target := profit_target
    limit_price := limit_price
    stop_price := stop_price
    order_type := order_type }

/-- Embedding of a `SignalEvent(...)` call that supplies only the three
required arguments, so every Python default applies: `order_type = "MKT"`,
`limit_price = None`, `stop_loss = None`, `profit_target = None`,
`stop_price = None`, `quantity = 10000`, `strategy_id = 1`. -/
def SignalEvent.initDefault (symbol : String) (datetime : Int)
    (signal_type : String) : SignalEvent :=
  SignalEvent.init symbol datetime signal_type "MKT" none none none none 10000 1

/-- `OrderEvent`: the only variant with a mutable lifecycle region. -/
structure OrderEvent where
  type : String
  order_id : Nat
  direction : String
  quantity : Int
  symbol : String
  order_type : String
  stop_loss : Option ℚ
  profit_target : Option ℚ
  limit_price : Option ℚ
  stop_price : Option ℚ
  entry_price : Option ℚ
  exit_price : Option ℚ
  entry_time : Option Int
  exit_time : Option Int
  profit : Option ℚ
deriving Repr, DecidableEq

/-- Embedding of `OrderEvent.__init__(signal, quantity, direction)`; the
`rand` argument is the entropy `uuid.uuid4()` consumes for `order_id`. -/
def OrderEvent.init (rand : Nat) (signal : SignalEvent) (quantity : Int)
    (direction : String) : OrderEvent :=
  { type := "ORDER"
    order_id := uuid4 rand
    direction := direction
    quantity := quantity
    symbol := signal.symbol
    order_type := signal.order_type
    stop_loss := signal.stop_loss
    profit_target := signal.profit_target
    limit_price := signal.limit_price
    stop_price := signal.stop_price
    entry_price := none
    exit_price := none
    entry_time := none
    exit_time := none
    profit := none }

/-- Errors of the order lifecycle ledger (spec section 4.3). -/
inductive LifecycleError where
  | alreadySet
  | invalidState
deriving Repr, DecidableEq

/-- Sign of a direction string: positive for "BUY", negative for "SELL". -/
def dirSign (direction : String) : ℚ :=
  if direction = "SELL" then -1 else 1

/-- Modelled from the spec: `record_entry(price, time)` is named in the spec
(section 4.3) but absent from `src/core/event.py`. It sets
`entry_price` and `entry_time` exactly once and fails with `AlreadySetError`
when entry was already recorded; on failure the order is unchanged (the
error carries no updated order). -/
def OrderEvent.record_entry (o : OrderEvent) (price : ℚ) (time : Int) :
    Except LifecycleError OrderEvent :=
  if o.entry_price.isSome || o.entry_time.isSome then
    .error .alreadySet
  else
    .ok { o with entry_price := some price, entry_time := some time }

/-- Modelled from the spec: `record_exit(price, time)` is named in the spec
(section 4.3) but absent from `src/core/event.py`. It fails with
`InvalidStateError` when called before any `record_entry`, fails with
`AlreadySetError` when exit was already recorded, and otherwise sets
`exit_price` and `exit_time` and stores
`profit = (exit_price - entry_price) * quantity * sign(direction)`. -/
def OrderEvent.record_exit (o : OrderEvent) (price : ℚ) (time : Int) :
    Except LifecycleError OrderEvent :=
  match o.entry_price with
  | none => .error .invalidState
  | some ep =>
    if o.exit_price.isSome || o.exit_time.isSome then
      .error .alreadySet
    else
      .ok { o with exit_price := some price, exit_time := some time,
                   profit := some ((price - ep) * (o.quantity : ℚ) * dirSign o.direction) }

/-- `FillEvent`: a confirmed execution of an order. The `order` field stores
the referenced `OrderEvent` (the Python object holds a reference). -/
structure FillEvent where
  type : String
  fill_id : Nat
  order : OrderEvent
  timeindex : Int
  price : ℚ
  symbol : String
  exchange : String
  quantity : Int
  direction : String
  commission : ℚ
deriving Repr, DecidableEq

/-- Embedding of `FillEvent.calculate_commission`: the body ignores `self`
and returns zero. -/
def FillEvent.calculate_commission : ℚ := 0

/-- Embedding of `FillEvent.__init__`; `rand` is the entropy consumed by
`uuid.uuid4()` for `fill_id`, and `commission = none` models omitting the
optional `commission` argument (Python default `None`), in which case the
stored commission is `calculate_commission ()`. -/
def FillEvent.init (rand : Nat) (order : OrderEvent) (timeindex : Int)
    (price : ℚ) (symbol exchange : String) (quantity : Int)
    (direction : String) (commission : Option ℚ) : FillEvent :=
  { type := "FILL"
    fill_id := uuid4 rand
    order := order
    timeindex := timeindex
    price := price
    symbol := symbol
    exchange := exchange
    quantity := quantity
    direction := direction
    commission :=
      match commission with
      | none => FillEvent.calculate_commission
      | some c => c }

/-- A concrete order used by witness statements: built from a default-argument
signal, so its lifecycle fields start absent. -/
def sampleOrder : OrderEvent :=
  OrderEvent.init 0 (SignalEvent.initDefault "GOOG" 0 "LONG") 50 "BUY"

/-- C1 counterexample: the claim says a SignalEvent with `order_type = LMT`
and `limit_price` absent cannot be obtained because construction fails with a
ValidationError; in the source `SignalEvent.__init__` performs no validation,
so the construction succeeds and the instance below has `order_type = "LMT"`
with `limit_price = none` (and symmetrically for STP / stop_price). -/
theorem signal_lmt_no_validation_counterexample :
    (SignalEvent.init "GOOG" 0 "LONG" "LMT" none none none none 10000 1).order_type = "LMT" ∧
    (SignalEvent.init "GOOG" 0 "LONG" "LMT" none none none none 10000 1).limit_price = none ∧
    (SignalEvent.init "GOOG" 0 "LONG" "STP" none none none none 10000 1).order_type = "STP" ∧
    (SignalEvent.init "GOOG" 0 "LONG" "STP" none none none none 10000 1).stop_price = none :=
  ⟨rfl, rfl, rfl, rfl⟩

/-- C1 amended: SignalEvent construction with `order_type = LMT` and
`limit_price` absent never fails; it returns an instance storing
`order_type = "LMT"` and `limit_price = none` unchanged, symmetrically for
`STP` / `stop_price`, and an OrderEvent built from such a signal copies the
unvalidated fields verbatim. No ValidationError exists in the code. -/
theorem signal_construction_unvalidated (symbol : String) (datetime : Int)
    (signal_type : String) (sl pt : Option ℚ) (q sid : Int)
    (rand : Nat) (oq : Int) (dir : String) :
    (SignalEvent.init symbol datetime signal_type "LMT" none sl pt none q sid).order_type = "LMT" ∧
    (SignalEvent.init symbol datetime signal_type "LMT" none sl pt none q sid).limit_price = none ∧
    (SignalEvent.init symbol datetime signal_type "STP" none sl pt none q sid).order_type = "STP" ∧
    (SignalEvent.init symbol datetime signal_type "STP" none sl pt none q sid).stop_price = none ∧
    (OrderEvent.init rand (SignalEvent.init symbol datetime signal_type "LMT" none sl pt none q sid) oq dir).order_type = "LMT" ∧
    (OrderEvent.init rand (SignalEvent.init symbol datetime signal_type "LMT" none sl pt none q sid) oq dir).limit_price = none ∧
    (OrderEvent.init rand (SignalEvent.init symbol datetime signal_type "STP" none sl pt none q sid) oq dir).stop_price = none :=
  ⟨rfl, rfl, rfl, rfl, rfl, rfl, rfl⟩

/-- C2: on any OrderEvent whose entry fields are still absent, `record_entry`
succeeds and sets `entry_price` and `entry_time`; a second `record_entry` on
the result fails with `AlreadySetError`; and `record_exit` before any
`record_entry` fails with `InvalidStateError` (the error carries no updated
order, so the lifecycle fields are unchanged on failure). -/
theorem orderEvent_lifecycle_write_once (o : OrderEvent)
    (hp : o.entry_price = none) (ht : o.entry_time = none)
    (p p2 q : ℚ) (t t2 u : Int) :
    (∃ o1, o.record_entry p t = .ok o1 ∧
      o1.entry_price = some p ∧ o1.entry_time = some t ∧
      o1.record_entry p2 t2 = .error .alreadySet) ∧
    o.record_exit q u = .error .invalidState := by
  constructor
  · refine ⟨{ o with entry_price := some p, entry_time := some t }, ?_, rfl, rfl, ?_⟩
    · simp [OrderEvent.record_entry, hp, ht]
    · simp [OrderEvent.record_entry]
  · simp [OrderEvent.record_exit, hp]

/-- C2 witness: the lifecycle contract evaluated on a concrete freshly
constructed order. -/
theorem orderEvent_lifecycle_write_once_witness :
    (∃ o1, sampleOrder.record_entry 1 1 = .ok o1 ∧
      o1.entry_price = some 1 ∧ o1.entry_time = some 1 ∧
      o1.record_entry 2 2 = .error .alreadySet) ∧
    sampleOrder.record_exit 3 3 = .error .invalidState :=
  orderEvent_lifecycle_write_once sampleOrder rfl rfl 1 2 3 1 2 3

/-- C3: an OrderEvent constructed from a signal copies `symbol`,
`order_type`, `stop_loss`, `profit_target`, `limit_price` and `stop_price`
verbatim from the signal, and all five lifecycle fields are absent
immediately after construction. -/
theorem order_from_signal_preserves_fields (rand : Nat) (s : SignalEvent)
    (q : Int) (d : String) :
    (OrderEvent.init rand s q d).symbol = s.symbol ∧
    (OrderEvent.init rand s q d).order_type = s.order_type ∧
    (OrderEvent.init rand s q d).stop_loss = s.stop_loss ∧
    (OrderEvent.init rand s q d).profit_target = s.profit_target ∧
    (OrderEvent.init rand s q d).limit_price = s.limit_price ∧
    (OrderEvent.init rand s q d).stop_price = s.stop_price ∧
    (OrderEvent.init rand s q d).entry_price = none ∧
    (OrderEvent.init rand s q d).exit_price = none ∧
    (OrderEvent.init rand s q d).entry_time = none ∧
    (OrderEvent.init rand s q d).exit_time = none ∧
    (OrderEvent.init rand s q d).profit = none :=
  ⟨rfl, rfl, rfl, rfl, rfl, rfl, rfl, rfl, rfl, rfl, rfl⟩

/-- C4: a FillEvent constructed with the commission argument absent stores
the value of `calculate_commission` (which is 0); constructed with an
explicit commission value it stores that value exactly, for every value. -/
theorem fill_commission_resolution (rand : Nat) (o : OrderEvent) (ti : Int)
    (p : ℚ) (sym ex : String) (q : Int) (d : String) (c : ℚ) :
    (FillEvent.init rand o ti p sym ex q d none).commission = 0 ∧
    (FillEvent.init rand o ti p sym ex q d (some c)).commission = c :=
  ⟨rfl, rfl⟩

/-- C5: the spec scenario. A signal for GOOG with `order_type = LMT`,
`limit_price = 100.50` and `quantity = 10000` produces, with quantity 50 and
direction BUY, an order with `limit_price = 100.50`, `quantity = 50` and
`entry_price` absent; `record_entry(100.25, t1)` then `record_exit(105.00,
t2)` yields `profit = (105.00 - 100.25) * 50 = 237.50`. The prices 100.50,
100.25, 105.00 and 237.50 are the rationals 201/2, 401/4, 105 and 475/2. -/
theorem scenario_goog_lifecycle :
    ∃ o1 o2,
      (OrderEvent.init 7 (SignalEvent.init "GOOG" 0 "LONG" "LMT" (some (201/2)) none none none 10000 1) 50 "BUY").limit_price = some (201/2) ∧
      (OrderEvent.init 7 (SignalEvent.init "GOOG" 0 "LONG" "LMT" (some (201/2)) none none none 10000 1) 50 "BUY").quantity = 50 ∧
      (OrderEvent.init 7 (SignalEvent.init "GOOG" 0 "LONG" "LMT" (some (201/2)) none none none 10000 1) 50 "BUY").entry_price = none ∧
      (OrderEvent.init 7 (SignalEvent.init "GOOG" 0 "LONG" "LMT" (some (201/2)) none none none 10000 1) 50 "BUY").record_entry (401/4) 1 = .ok o1 ∧
      o1.record_exit 105 2 = .ok o2 ∧
      o2.profit = some (475/2) := by
  refine ⟨_, _, rfl, rfl, rfl, rfl, rfl, ?_⟩
  norm_num [OrderEvent.record_exit, OrderEvent.record_entry, OrderEvent.init,
    SignalEvent.init, dirSign]
  decide

/-- C7: every variant stores its fixed discriminant at construction (MARKET,
ACTION, SIGNAL, ORDER, FILL), every stored field equals the corresponding
constructor input exactly, and a SignalEvent built with only the required
arguments gets the documented defaults `order_type = "MKT"`,
`quantity = 10000`, `strategy_id = 1`. -/
theorem event_construction_exact (sym act : String) (dt : Int) (st ot : String)
    (lp sl pt sp : Option ℚ) (q sid : Int) (rand : Nat) (o : OrderEvent)
    (oq : Int) (dir : String) (s : SignalEvent) (ti : Int) (p : ℚ)
    (ex : String) (fq : Int) (fd : String) (c : ℚ) :
    MarketEvent.init.type = "MARKET" ∧
    (ActionEvent.init sym act).type = "ACTION" ∧
    (ActionEvent.init sym act).symbol = sym ∧
    (ActionEvent.init sym act).action_type = act ∧
    (SignalEvent.init sym dt st ot lp sl pt sp q sid).type = "SIGNAL" ∧
    (SignalEvent.init sym dt st ot lp sl pt sp q sid).symbol = sym ∧
    (SignalEvent.init sym dt st ot lp sl pt sp q sid).datetime = dt ∧
    (SignalEvent.init sym dt st ot lp sl pt sp q sid).signal_type = st ∧
    (SignalEvent.init sym dt st ot lp sl pt sp q sid).order_type = ot ∧
    (SignalEvent.init sym dt st ot lp sl pt sp q sid).limit_price = lp ∧
    (SignalEvent.init sym dt st ot lp sl pt sp q sid).stop_loss = sl ∧
    (SignalEvent.init sym dt st ot lp sl pt sp q sid).profit_target = pt ∧
    (SignalEvent.init sym dt st ot lp sl pt sp q sid).stop_price = sp ∧
    (SignalEvent.init sym dt st ot lp sl pt sp q sid).quantity = q ∧
    (SignalEvent.init sym dt st ot lp sl pt sp q sid).strategy_id = sid ∧
    (SignalEvent.initDefault sym dt st).order_type = "MKT" ∧
    (SignalEvent.initDefault sym dt st).quantity = 10000 ∧
    (SignalEvent.initDefault sym dt st).strategy_id = 1 ∧
    (OrderEvent.init rand s oq dir).type = "ORDER" ∧
    (OrderEvent.init rand s oq dir).quantity = oq ∧
    (OrderEvent.init rand s oq dir).direction = dir ∧
    (FillEvent.init rand o ti p sym ex fq fd (some c)).type = "FILL" ∧
    (FillEvent.init rand o ti p sym ex fq fd (some c)).timeindex = ti ∧
    (FillEvent.init rand o ti p sym ex fq fd (some c)).price = p ∧
    (FillEvent.init rand o ti p sym ex fq fd (some c)).symbol = sym ∧
    (FillEvent.init rand o ti p sym ex fq fd (some c)).exchange = ex ∧
    (FillEvent.init rand o ti p sym ex fq fd (some c)).quantity = fq ∧
    (FillEvent.init rand o ti p sym ex fq fd (some c)).direction = fd ∧
    (FillEvent.init rand o ti p sym ex fq fd (some c)).commission = c := by
  repeat constructor

/-- C8: constructing a FillEvent does not modify the referenced OrderEvent.
The embedding of `FillEvent.__init__` lists every assignment the Python
constructor performs, and all of them target the fill itself; the
constructed fill stores the order value unchanged, so every field of the
stored order (identifier, signal-copied fields and lifecycle fields) equals
the corresponding field of the input order. -/
theorem fill_construction_leaves_order_unchanged (rand : Nat) (o : OrderEvent)
    (ti : Int) (p : ℚ) (sym ex : String) (q : Int) (d : String)
    (c : Option ℚ) :
    (FillEvent.init rand o ti p sym ex q d c).order = o ∧
    (FillEvent.init rand o ti p sym ex q d c).order.order_id = o.order_id ∧
    (FillEvent.init rand o ti p sym ex q d c).order.entry_price = o.entry_price ∧
    (FillEvent.init rand o ti p sym ex q d c).order.profit = o.profit :=
  ⟨rfl, rfl, rfl, rfl⟩

/-- C9: OrderEvent construction is deterministic apart from the identifier.
Two orders built from the same signal, quantity and direction but different
entropy agree on every field except possibly `order_id`. -/
theorem order_init_deterministic_mod_id (r1 r2 : Nat) (s : SignalEvent)
    (q : Int) (d : String) :
    (OrderEvent.init r1 s q d).type = (OrderEvent.init r2 s q d).type ∧
    (OrderEvent.init r1 s q d).direction = (OrderEvent.init r2 s q d).direction ∧
    (OrderEvent.init r1 s q d).quantity = (OrderEvent.init r2 s q d).quantity ∧
    (OrderEvent.init r1 s q d).symbol = (OrderEvent.init r2 s q d).symbol ∧
    (OrderEvent.init r1 s q d).order_type = (OrderEvent.init r2 s q d).order_type ∧
    (OrderEvent.init r1 s q d).stop_loss = (OrderEvent.init r2 s q d).stop_loss ∧
    (OrderEvent.init r1 s q d).profit_target = (OrderEvent.init r2 s q d).profit_target ∧
    (OrderEvent.init r1 s q d).limit_price = (OrderEvent.init r2 s q d).limit_price ∧
    (OrderEvent.init r1 s q d).stop_price = (OrderEvent.init r2 s q d).stop_price ∧
    (OrderEvent.init r1 s q d).entry_price = (OrderEvent.init r2 s q d).entry_price ∧
    (OrderEvent.init r1 s q d).exit_price = (OrderEvent.init r2 s q d).exit_price ∧
    (OrderEvent.init r1 s q d).entry_time = (OrderEvent.init r2 s q d).entry_time ∧
    (OrderEvent.init r1 s q d).exit_time = (OrderEvent.init r2 s q d).exit_time ∧
    (OrderEvent.init r1 s q d).profit = (OrderEvent.init r2 s q d).profit := by
  repeat constructor

/-- C10: the stored commission has type `ℚ`, never an optional, so it is
present on every constructed fill; the absent-commission branch stores the
default calculation, which is 0, and therefore a fill constructed with the
commission argument omitted is equal, as a whole structure, to one
constructed with an explicit commission of 0. -/
theorem fill_commission_never_absent (rand : Nat) (o : OrderEvent) (ti : Int)
    (p : ℚ) (sym ex : String) (q : Int) (d : String) :
    (FillEvent.init rand o ti p sym ex q d none).commission = FillEvent.calculate_commission ∧
    FillEvent.calculate_commission = 0 ∧
    FillEvent.init rand o ti p sym ex q d none = FillEvent.init rand o ti p sym ex q d (some 0) :=
  ⟨rfl, rfl, rfl⟩
